import Mathlib

/-!
Verification of the veilmail-webhook-ingester storage/ingestion core.

The TypeScript sources are shallowly embedded as executable Lean
definitions:

* `src/webhook-verifier.ts` — `verifyWebhookSignature`, together with a
  byte-level model of Node's `createHmac('sha256', …)`/`digest('hex')`
  (a full SHA-256/HMAC implementation over `List Nat` bytes),
  `Buffer.from(s, 'hex')` (which truncates at the first invalid
  character or incomplete pair) and `crypto.timingSafeEqual`.
* `src/adapters/{postgres,mysql,sqlite}.ts` — each adapter becomes a
  state (`connected?` flag plus the stored table rows) with
  `createTable` / `insert` / `query` / `close` operations returning
  `Except String`; thrown JS exceptions are `.error`.  Timestamp
  columns are modelled by their instant (integer milliseconds): the
  adapters serialize timestamps to ISO-8601 (Postgres/SQLite) or
  `YYYY-MM-DD hh:mm:ss.SSS` (MySQL) strings, all of which are
  order-isomorphic to the underlying instant, so `ORDER BY created_at
  DESC` is ordering by the instant in every variant.
* `src/adapters/index.ts` — `createAdapter` with its defaulted table
  name.
* `src/server.ts` — the `POST /webhook` route (signature gate,
  normalization, insert) and the `GET /events` parameter parsing
  (`parseInt(x, 10) || default` followed by clamping).

JavaScript `Date` values are modelled as `Option Int` (`none` =
Invalid Date); `Date.prototype.toISOString` throws on an invalid date,
which the embedding reflects as an `Except.error "Invalid time value"`.
-/

/-! ### Bytes, UTF-8 and hex encoding (Node `Buffer` model) -/

/-- UTF-8 encoding of a single character, as byte values. -/
def utf8Bytes (c : Char) : List Nat :=
  let n := c.toNat
  if n < 128 then [n]
  else if n < 2048 then [192 + n / 64, 128 + n % 64]
  else if n < 65536 then [224 + n / 4096, 128 + n / 64 % 64, 128 + n % 64]
  else [240 + n / 262144, 128 + n / 4096 % 64, 128 + n / 64 % 64, 128 + n % 64]

/-- The UTF-8 bytes of a string (Node `Buffer.from(s, 'utf8')`). -/
def strBytes (s : String) : List Nat :=
  s.toList.flatMap utf8Bytes

/-- Lower-case hex digit for a nibble, as produced by Node `digest('hex')`. -/
def hexChar (n : Nat) : Char :=
  Char.ofNat (if n < 10 then n + 48 else n + 87)

/-- Hex encoding of a byte list, lower case (Node `Buffer.toString('hex')`). -/
def hexEncode (bs : List Nat) : String :=
  String.mk (bs.flatMap (fun b => [hexChar (b / 16), hexChar (b % 16)]))

/-- Value of a hex digit character (upper or lower case), `none` otherwise. -/
def hexVal (c : Char) : Option Nat :=
  if 48 ≤ c.toNat ∧ c.toNat ≤ 57 then some (c.toNat - 48)
  else if 97 ≤ c.toNat ∧ c.toNat ≤ 102 then some (c.toNat - 87)
  else if 65 ≤ c.toNat ∧ c.toNat ≤ 70 then some (c.toNat - 55)
  else none

/-- Hex decoding of a character list, Node `Buffer.from(s, 'hex')` style:
decoding proceeds pair by pair and stops (truncates) at the first
invalid character or incomplete pair, never raising. -/
def hexDecodeChars : List Char → List Nat
  | c1 :: c2 :: rest =>
    match hexVal c1, hexVal c2 with
    | some hi, some lo => (hi * 16 + lo) :: hexDecodeChars rest
    | _, _ => []
  | _ => []

/-- Node `Buffer.from(s, 'hex')` as a byte list. -/
def hexDecode (s : String) : List Nat :=
  hexDecodeChars s.toList

/-! ### SHA-256 over byte lists (model of Node `createHash('sha256')`) -/

/-- 2^32. -/
def M32 : Nat := 4294967296

/-- 32-bit addition. -/
def add32 (a b : Nat) : Nat := (a + b) % M32

/-- 32-bit right rotation. -/
def rotr32 (n x : Nat) : Nat := ((x >>> n) ||| (x <<< (32 - n))) % M32

/-- SHA-256 `Ch` function. -/
def shaCh (x y z : Nat) : Nat := (x &&& y) ^^^ ((x ^^^ 4294967295) &&& z)

/-- SHA-256 `Maj` function. -/
def shaMaj (x y z : Nat) : Nat := (x &&& y) ^^^ (x &&& z) ^^^ (y &&& z)

/-- SHA-256 Σ₀. -/
def bsig0 (x : Nat) : Nat := rotr32 2 x ^^^ rotr32 13 x ^^^ rotr32 22 x

/-- SHA-256 Σ₁. -/
def bsig1 (x : Nat) : Nat := rotr32 6 x ^^^ rotr32 11 x ^^^ rotr32 25 x

/-- SHA-256 σ₀. -/
def ssig0 (x : Nat) : Nat := rotr32 7 x ^^^ rotr32 18 x ^^^ (x >>> 3)

/-- SHA-256 σ₁. -/
def ssig1 (x : Nat) : Nat := rotr32 17 x ^^^ rotr32 19 x ^^^ (x >>> 10)

/-- The 64 SHA-256 round constants (FIPS 180-4), in decimal. -/
def K256 : List Nat :=
  [1116352408, 1899447441, 3049323471, 3921009573, 961987163,
   1508970993, 2453635748, 2870763221, 3624381080, 310598401,
   607225278, 1426881987, 1925078388, 2162078206, 2614888103,
   3248222580, 3835390401, 4022224774, 264347078, 604807628,
   770255983, 1249150122, 1555081692, 1996064986, 2554220882,
   2821834349, 2952996808, 3210313671, 3336571891, 3584528711,
   113926993, 338241895, 666307205, 773529912, 1294757372,
   1396182291, 1695183700, 1986661051, 2177026350, 2456956037,
   2730485921, 2820302411, 3259730800, 3345764771, 3516065817,
   3600352804, 4094571909, 275423344, 430227734, 506948616,
   659060556, 883997877, 958139571, 1322822218, 1537002063,
   1747873779, 1955562222, 2024104815, 2227730452, 2361852424,
   2428436474, 2756734187, 3204031479, 3329325298]

/-- The eight SHA-256 working/chaining words. -/
structure Hash8 where
  a : Nat
  b : Nat
  c : Nat
  d : Nat
  e : Nat
  f : Nat
  g : Nat
  h : Nat
deriving Repr, DecidableEq

/-- SHA-256 initial hash value (FIPS 180-4), in decimal. -/
def initH : Hash8 :=
  ⟨1779033703, 3144134277, 1013904242, 2773480762,
   1359893119, 2600822924, 528734635, 1541459225⟩

/-- Big-endian 32-bit words from bytes (complete groups of four). -/
def bytesToWords : List Nat → List Nat
  | b0 :: b1 :: b2 :: b3 :: rest =>
    (((b0 * 256 + b1) * 256 + b2) * 256 + b3) :: bytesToWords rest
  | _ => []

/-- The four big-endian bytes of a 32-bit word. -/
def wordBytes (w : Nat) : List Nat :=
  [w / 16777216 % 256, w / 65536 % 256, w / 256 % 256, w % 256]

/-- Extend the 16 schedule words by `n` further words. -/
def schedExtend (w : List Nat) : Nat → List Nat
  | 0 => w
  | n + 1 =>
    let len := w.length
    let nw := add32 (add32 (ssig1 (w.getD (len - 2) 0)) (w.getD (len - 7) 0))
                    (add32 (ssig0 (w.getD (len - 15) 0)) (w.getD (len - 16) 0))
    schedExtend (w ++ [nw]) n

/-- The 64-word message schedule of a 64-byte block. -/
def schedule (block : List Nat) : List Nat :=
  schedExtend (bytesToWords block) 48

/-- One SHA-256 round: state times (round constant, schedule word). -/
def shaRound (st : Hash8) (kw : Nat × Nat) : Hash8 :=
  let t1 := add32 st.h (add32 (bsig1 st.e)
              (add32 (shaCh st.e st.f st.g) (add32 kw.1 kw.2)))
  let t2 := add32 (bsig0 st.a) (shaMaj st.a st.b st.c)
  ⟨add32 t1 t2, st.a, st.b, st.c, add32 st.d t1, st.e, st.f, st.g⟩

/-- Compress one 64-byte block into the chaining value. -/
def processBlock (h0 : Hash8) (block : List Nat) : Hash8 :=
  let st := (K256.zip (schedule block)).foldl shaRound h0
  ⟨add32 h0.a st.a, add32 h0.b st.b, add32 h0.c st.c, add32 h0.d st.d,
   add32 h0.e st.e, add32 h0.f st.f, add32 h0.g st.g, add32 h0.h st.h⟩

/-- SHA-256 padding: `0x80`, zeros, then the 64-bit big-endian bit length. -/
def sha256Pad (msg : List Nat) : List Nat :=
  let L := msg.length
  let zeros := (64 - (L + 9) % 64) % 64
  let bits := 8 * L
  msg ++ 128 :: List.replicate zeros 0 ++ wordBytes (bits / M32) ++ wordBytes (bits % M32)

/-- Split a byte list into 64-byte chunks; the fuel argument (any bound
on the number of chunks, `l.length` suffices) keeps the recursion
structural so that the kernel can evaluate it. -/
def chunks64Aux : Nat → List Nat → List (List Nat)
  | 0, _ => []
  | _, [] => []
  | fuel + 1, l => l.take 64 :: chunks64Aux fuel (l.drop 64)

/-- Split a byte list into 64-byte chunks. -/
def chunks64 (l : List Nat) : List (List Nat) :=
  chunks64Aux l.length l

/-- Serialize a final chaining value as the 32 digest bytes. -/
def hashBytes (hh : Hash8) : List Nat :=
  wordBytes hh.a ++ wordBytes hh.b ++ wordBytes hh.c ++ wordBytes hh.d ++
  wordBytes hh.e ++ wordBytes hh.f ++ wordBytes hh.g ++ wordBytes hh.h

/-- SHA-256 of a byte list, as 32 bytes. -/
def sha256 (msg : List Nat) : List Nat :=
  hashBytes ((chunks64 (sha256Pad msg)).foldl processBlock initH)

/-- HMAC-SHA-256 (RFC 2104) of a message under a key, as 32 bytes.
Model of Node `createHmac('sha256', secret).update(payload).digest()`. -/
def hmacSha256 (key msg : List Nat) : List Nat :=
  let k0 := if 64 < key.length then sha256 key else key
  let kp := k0 ++ List.replicate (64 - k0.length) 0
  let ipadded := kp.map (fun b => b ^^^ 54)
  let opadded := kp.map (fun b => b ^^^ 92)
  sha256 (opadded ++ sha256 (ipadded ++ msg))

/-! ### `src/webhook-verifier.ts` -/

/-- Node `crypto.timingSafeEqual` on two equal-length buffers: its value
is buffer equality (the constant-time execution profile is outside this
model). -/
def timingSafeEqual (a b : List Nat) : Bool :=
  a == b

/-- `verifyWebhookSignature` from `src/webhook-verifier.ts`: rejects any
empty argument, computes the expected hex HMAC-SHA-256 digest, hex-decodes
both signatures (Node truncation semantics), rejects on length mismatch,
and otherwise compares with `timingSafeEqual`.  Total: the source wraps
everything in `try/catch { return false }`. -/
def verifyWebhookSignature (payload signature secret : String) : Bool :=
  if payload = "" ∨ signature = "" ∨ secret = "" then false
  else
    let expected := hexEncode (hmacSha256 (strBytes secret) (strBytes payload))
    let signatureBuffer := hexDecode signature
    let expectedBuffer := hexDecode expected
    if signatureBuffer.length ≠ expectedBuffer.length then false
    else timingSafeEqual signatureBuffer expectedBuffer

/-! ### Data model (`src/types.ts`) -/

/-- Parsed JSON values (`Record<string, unknown>` payloads and the stored
`data` documents). -/
inductive Json where
  | null
  | bool (b : Bool)
  | num (n : Int)
  | str (s : String)
  | arr (xs : List Json)
  | obj (fields : List (String × Json))

/-- `WebhookEvent` from `src/types.ts`.  A JavaScript `Date` is `Option
Int`: `some t` is the instant `t` (milliseconds), `none` is an Invalid
Date. -/
structure WebhookEvent where
  id : String
  event_type : String
  event_id : String
  data : Json
  created_at : Option Int
  received_at : Option Int

/-- `QueryOptions` from `src/types.ts` (all fields optional; the adapters
default `limit` to 50 and `offset` to 0). -/
structure QueryOptions where
  type : Option String := none
  limit : Option Nat := none
  offset : Option Nat := none

/-- `Date.prototype.toISOString`: serializes a valid date, throws
`RangeError: Invalid time value` on an invalid one.  The serialized
string is order-isomorphic to the instant, so the model keeps the
instant. -/
def toISOString (d : Option Int) : Except String Int :=
  match d with
  | some t => .ok t
  | none => .error "Invalid time value"

/-- A stored table row (columns of the `webhook_events` table).  `data`
is stored serialized (`JSON.stringify`); serialization round-trips for
JSON-origin documents, so the model keeps the structured value.
`created_at`/`received_at` are stored in a backend-native textual or
native timestamp form, each order-isomorphic to the instant. -/
structure StoredRow where
  id : String
  event_type : String
  event_id : String
  data : Json
  created_at : Int
  received_at : Int

/-- Serialize an event into a row; evaluates `toISOString` on both
timestamps (this is what each adapter's `insert` does to build its bind
parameters, before touching the store). -/
def rowOfEvent (e : WebhookEvent) : Except String StoredRow := do
  let c ← toISOString e.created_at
  let r ← toISOString e.received_at
  .ok ⟨e.id, e.event_type, e.event_id, e.data, c, r⟩

/-- A row deserialized back into an event (the adapters' `rows.map`
blocks: parse the stored JSON, wrap the timestamps back into `Date`s). -/
def eventOfRow (r : StoredRow) : WebhookEvent :=
  ⟨r.id, r.event_type, r.event_id, r.data, some r.created_at, some r.received_at⟩

/-- JS truthiness of the optional `type` filter (`if (options?.type)`):
an absent or empty string is falsy. -/
def jsTruthyStr (o : Option String) : Bool :=
  match o with
  | some t => !(t == "")
  | none => false

/-- `ORDER BY created_at DESC` as a relation on rows. -/
def rowDescOrd (a b : StoredRow) : Prop :=
  b.created_at ≤ a.created_at

instance : DecidableRel rowDescOrd :=
  fun a b => Int.decLe b.created_at a.created_at

instance : IsTotal StoredRow rowDescOrd :=
  ⟨fun a b => le_total b.created_at a.created_at⟩

instance : IsTrans StoredRow rowDescOrd :=
  ⟨fun _ _ _ hab hbc => le_trans hbc hab⟩

/-- The shared SQL semantics of the three adapters' `query`: optional
exact `event_type` filter (skipped when the filter is JS-falsy), order
by `created_at` descending, `OFFSET`, `LIMIT`, then deserialize. -/
def queryRows (rows : List StoredRow) (o : QueryOptions) : List WebhookEvent :=
  let lim := o.limit.getD 50
  let off := o.offset.getD 0
  let filtered :=
    if jsTruthyStr o.type then rows.filter (fun r => r.event_type == o.type.getD "")
    else rows
  ((List.insertionSort rowDescOrd filtered).drop off).take lim |>.map eventOfRow

/-! ### `src/adapters/postgres.ts` -/

/-- The state of a `PostgresAdapter`: whether `this.pool` is non-null,
and the rows of its table. -/
structure PgState where
  conn : Bool
  rows : List StoredRow

/-- `ensureConnected` of the Postgres adapter. -/
def pgEnsureConnected (s : PgState) : Except String Unit :=
  if s.conn then .ok ()
  else .error "PostgreSQL adapter is not connected. Call connect() first."

/-- `connect()`: installs the pool (driver loading/connection failures
are startup concerns outside these claims). -/
def pgConnect (s : PgState) : PgState :=
  { s with conn := true }

/-- `createTable()`: `CREATE TABLE IF NOT EXISTS` plus `CREATE INDEX IF
NOT EXISTS` — idempotent, leaves existing rows untouched. -/
def pgCreateTable (s : PgState) : Except String PgState := do
  pgEnsureConnected s
  .ok s

/-- `insert()`: serializes the bind parameters, then `INSERT … ON
CONFLICT (event_id) DO NOTHING`.  A duplicate `event_id` is silently
skipped; a duplicate primary-key `id` with a fresh `event_id` is not
covered by the conflict target and raises. -/
def pgInsert (s : PgState) (e : WebhookEvent) : Except String PgState := do
  pgEnsureConnected s
  let row ← rowOfEvent e
  if s.rows.any (fun r => r.event_id == e.event_id) then .ok s
  else if s.rows.any (fun r => r.id == e.id) then
    .error "duplicate key value violates unique constraint"
  else .ok { s with rows := s.rows ++ [row] }

/-- `query()` of the Postgres adapter. -/
def pgQuery (s : PgState) (o : QueryOptions) : Except String (List WebhookEvent) := do
  pgEnsureConnected s
  .ok (queryRows s.rows o)

/-- `close()`: ends the pool if present and nulls it; a no-op otherwise.
Total — it never throws. -/
def pgClose (s : PgState) : PgState :=
  if s.conn then { s with conn := false } else s

/-! ### `src/adapters/mysql.ts` -/

/-- The state of a `MysqlAdapter` (`this.pool` plus table rows). -/
structure MyState where
  conn : Bool
  rows : List StoredRow

/-- `ensureConnected` of the MySQL adapter. -/
def myEnsureConnected (s : MyState) : Except String Unit :=
  if s.conn then .ok ()
  else .error "MySQL adapter is not connected. Call connect() first."

/-- `connect()` of the MySQL adapter. -/
def myConnect (s : MyState) : MyState :=
  { s with conn := true }

/-- `createTable()` of the MySQL adapter (idempotent, single DDL). -/
def myCreateTable (s : MyState) : Except String MyState := do
  myEnsureConnected s
  .ok s

/-- `insert()`: serializes the bind parameters, then `INSERT IGNORE`,
which skips the row on any duplicate key — unique `event_id` or primary
`id` alike. -/
def myInsert (s : MyState) (e : WebhookEvent) : Except String MyState := do
  myEnsureConnected s
  let row ← rowOfEvent e
  if s.rows.any (fun r => r.event_id == e.event_id) then .ok s
  else if s.rows.any (fun r => r.id == e.id) then .ok s
  else .ok { s with rows := s.rows ++ [row] }

/-- `query()` of the MySQL adapter. -/
def myQuery (s : MyState) (o : QueryOptions) : Except String (List WebhookEvent) := do
  myEnsureConnected s
  .ok (queryRows s.rows o)

/-- `close()` of the MySQL adapter; total, idempotent. -/
def myClose (s : MyState) : MyState :=
  if s.conn then { s with conn := false } else s

/-! ### `src/adapters/sqlite.ts` -/

/-- The state of a `SqliteAdapter` (`this.db` plus table rows). -/
structure LiteState where
  conn : Bool
  rows : List StoredRow

/-- `ensureConnected` of the SQLite adapter. -/
def liteEnsureConnected (s : LiteState) : Except String Unit :=
  if s.conn then .ok ()
  else .error "SQLite adapter is not connected. Call connect() first."

/-- `connect()` of the SQLite adapter. -/
def liteConnect (s : LiteState) : LiteState :=
  { s with conn := true }

/-- `createTable()` of the SQLite adapter (idempotent DDL). -/
def liteCreateTable (s : LiteState) : Except String LiteState := do
  liteEnsureConnected s
  .ok s

/-- `insert()`: prepares the statement and runs it with the serialized
parameters; `INSERT OR IGNORE` skips the row on any uniqueness conflict
(`event_id` or primary `id`). -/
def liteInsert (s : LiteState) (e : WebhookEvent) : Except String LiteState := do
  liteEnsureConnected s
  let row ← rowOfEvent e
  if s.rows.any (fun r => r.event_id == e.event_id) then .ok s
  else if s.rows.any (fun r => r.id == e.id) then .ok s
  else .ok { s with rows := s.rows ++ [row] }

/-- `query()` of the SQLite adapter. -/
def liteQuery (s : LiteState) (o : QueryOptions) : Except String (List WebhookEvent) := do
  liteEnsureConnected s
  .ok (queryRows s.rows o)

/-- `close()` of the SQLite adapter; total, idempotent. -/
def liteClose (s : LiteState) : LiteState :=
  if s.conn then { s with conn := false } else s

/-! ### `src/adapters/index.ts` -/

/-- `DatabaseConfig` from `src/types.ts`; `type` is kept as a string so
that the factory's unsupported-type branch stays representable. -/
structure DatabaseConfig where
  type : String
  url : String

/-- What `createAdapter` hands to the chosen adapter's constructor. -/
structure AdapterHandle where
  kind : String
  url : String
  tableName : String

/-- `createAdapter` from `src/adapters/index.ts`: dispatches on
`config.type` and constructs the adapter with `config.url` and the
table name, whose declared default is `'veilmail_webhook_events'`. -/
def createAdapter (config : DatabaseConfig)
    (tableName : String := "veilmail_webhook_events") : Except String AdapterHandle :=
  if config.type = "postgres" then .ok ⟨"postgres", config.url, tableName⟩
  else if config.type = "mysql" then .ok ⟨"mysql", config.url, tableName⟩
  else if config.type = "sqlite" then .ok ⟨"sqlite", config.url, tableName⟩
  else
    .error ("Unsupported database type: \"" ++ config.type ++
      "\". Supported types: postgres, mysql, sqlite")

/-! ### `src/server.ts` -/

/-- JS truthiness of a JSON value (`payload.created_at ? … : …`):
`null`, `false`, `0` and `""` are falsy; arrays and objects are truthy. -/
def jsTruthyJson (v : Json) : Bool :=
  match v with
  | .null => false
  | .bool b => b
  | .num n => !(n == 0)
  | .str s => !(s == "")
  | .arr _ => true
  | .obj _ => true

/-- Property access `payload.k` on a parsed JSON document: field lookup
on an object, `undefined` (`none`) otherwise. -/
def lookupField (v : Json) (k : String) : Option Json :=
  match v with
  | .obj fields => fields.lookup k
  | _ => none

/-- JS string coercion, for the unchecked `as string` casts: a
non-string payload field flows through the cast unconverted and is
coerced to text downstream.  Only the `str` case is exercised by the
claims. -/
def jsToStr (v : Json) : String :=
  match v with
  | .str s => s
  | .num n => toString n
  | .bool b => if b then "true" else "false"
  | .null => "null"
  | .arr _ => ""
  | .obj _ => "[object Object]"

/-- Modelled platform function: `new Date(string)` restricted to the
strict ISO-8601 shape `YYYY-MM-DDThh:mm:ss.mmmZ` that this system
itself produces; any other string is an Invalid Date (`none`).  The
returned instant packs the calendar fields injectively and
order-isomorphically to the real epoch encoding of this shape. -/
def jsDateParse (s : String) : Option Int :=
  match s.toList with
  | [y1, y2, y3, y4, '-', m1, m2, '-', d1, d2, 'T',
     h1, h2, ':', n1, n2, ':', s1, s2, '.', f1, f2, f3, 'Z'] =>
    if ([y1, y2, y3, y4, m1, m2, d1, d2, h1, h2, n1, n2, s1, s2, f1, f2, f3].all
          (fun c => c.isDigit)) then
      let dv := fun (c : Char) => c.toNat - 48
      let y := ((dv y1 * 10 + dv y2) * 10 + dv y3) * 10 + dv y4
      let mo := dv m1 * 10 + dv m2
      let d := dv d1 * 10 + dv d2
      let h := dv h1 * 10 + dv h2
      let mi := dv n1 * 10 + dv n2
      let sec := dv s1 * 10 + dv s2
      let ms := (dv f1 * 10 + dv f2) * 10 + dv f3
      if 1 ≤ mo ∧ mo ≤ 12 ∧ 1 ≤ d ∧ d ≤ 31 ∧ h ≤ 23 ∧ mi ≤ 59 ∧ sec ≤ 59 then
        some (((((((y * 12 + mo) * 31 + d) * 24 + h) * 60 + mi) * 60 + sec) * 1000 + ms : Nat) : Int)
      else none
    else none
  | _ => none

/-- `new Date(x)` applied to a (truthy) payload field value: strings go
through date parsing, numbers are epoch instants, `true` coerces to the
instant 1; objects and arrays give an Invalid Date (approximating the
platform's corner cases, none of which the claims exercise). -/
def jsDateOf (v : Json) : Option Int :=
  match v with
  | .str s => jsDateParse s
  | .num n => some n
  | .bool b => if b then some 1 else none
  | .null => none
  | .arr _ => none
  | .obj _ => none

/-- The event built by the `POST /webhook` route (server.ts lines
111–120) from the parsed payload: generated `id`, `type` field or
`'unknown'`, `id` field or a generated identifier, the payload as
`data`, `created_at` from the payload field when that field is truthy
(else the ingest time — with no parseability check), `received_at`
always the ingest time.  The two `randomUUID()` results are passed in
as `uuid1`/`uuid2`. -/
def normalizeEvent (payload : Json) (now : Int) (uuid1 uuid2 : String) : WebhookEvent :=
  { id := uuid1
    event_type :=
      match lookupField payload "type" with
      | none => "unknown"
      | some .null => "unknown"
      | some v => jsToStr v
    event_id :=
      match lookupField payload "id" with
      | none => uuid2
      | some .null => uuid2
      | some v => jsToStr v
    data := payload
    created_at :=
      match lookupField payload "created_at" with
      | none => some now
      | some v => if jsTruthyJson v then jsDateOf v else some now
    received_at := some now }

/-- An HTTP response as written by `sendJson`. -/
structure HttpResponse where
  status : Nat
  body : Json

/-- The tail of the `POST /webhook` route, after the signature has been
accepted and the body parsed: normalize, `adapter.insert`, and either a
200 with the generated id or — when the insert throws (for example
`toISOString` on an invalid `created_at`) — the catch-all 500.  The
route is adapter-polymorphic; `insertFn` is the active adapter's
`insert`. -/
def ingestParsedPayload {σ : Type} (insertFn : σ → WebhookEvent → Except String σ)
    (st : σ) (payload : Json) (now : Int) (uuid1 uuid2 : String) : HttpResponse × σ :=
  let ev := normalizeEvent payload now uuid1 uuid2
  match insertFn st ev with
  | .ok st2 => (⟨200, .obj [("received", .bool true), ("id", .str ev.id)]⟩, st2)
  | .error _ => (⟨500, .obj [("error", .str "Internal server error")]⟩, st)

/-- The `POST /webhook` route (server.ts lines 87–126): the guard
`if (!signature)` tests JS falsiness, so both an absent header
(`undefined`) and a present-but-empty header value (`''`) take the
`Missing x-veilmail-signature header` 401 branch; failed verification
of a nonempty value → 401 with a different message; unparseable JSON
body → 400 (`parsedBody` stands for the platform `JSON.parse`, `none`
meaning it threw); otherwise normalize and insert. -/
def webhookRoute {σ : Type} (insertFn : σ → WebhookEvent → Except String σ)
    (secret : String) (sigHeader : Option String) (body : String)
    (parsedBody : Option Json) (st : σ) (now : Int) (uuid1 uuid2 : String) :
    HttpResponse × σ :=
  if sigHeader.getD "" = "" then
    (⟨401, .obj [("error", .str "Missing x-veilmail-signature header")]⟩, st)
  else if verifyWebhookSignature body (sigHeader.getD "") secret then
    match parsedBody with
    | none => (⟨400, .obj [("error", .str "Invalid JSON payload")]⟩, st)
    | some payload => ingestParsedPayload insertFn st payload now uuid1 uuid2
  else (⟨401, .obj [("error", .str "Invalid webhook signature")]⟩, st)

/-- JS `parseInt(s, 10)`: skip leading whitespace, optional sign, then
the longest leading run of decimal digits; `none` is `NaN`. -/
def parseIntDec (s : String) : Option Int :=
  let cs := s.toList.dropWhile (fun c => c = ' ' ∨ c = '\t' ∨ c = '\n' ∨ c = '\r')
  let signed : Int × List Char :=
    match cs with
    | '-' :: r => (-1, r)
    | '+' :: r => (1, r)
    | r => (1, r)
  let digits := signed.2.takeWhile (fun c => c.isDigit)
  if digits = [] then none
  else some (signed.1 * ((digits.foldl (fun a c => a * 10 + (c.toNat - 48)) 0 : Nat) : Int))

/-- JS `x || d` applied to a `parseInt` result: `NaN` and `0` are both
falsy, so both fall back to the default. -/
def jsOrInt (v : Option Int) (d : Int) : Int :=
  match v with
  | none => d
  | some n => if n = 0 then d else n

/-- The `limit` computation of `GET /events` (server.ts lines 74–76):
absent parameter → 50; otherwise `Math.min(Math.max(parseInt(v, 10) ||
50, 1), 1000)`. -/
def clampLimit (q : Option String) : Int :=
  match q with
  | none => 50
  | some s => min (max (jsOrInt (parseIntDec s) 50) 1) 1000

/-- The `offset` computation of `GET /events` (server.ts lines 77–79):
absent parameter → 0; otherwise `Math.max(parseInt(v, 10) || 0, 0)`. -/
def clampOffset (q : Option String) : Int :=
  match q with
  | none => 0
  | some s => max (jsOrInt (parseIntDec s) 0) 0

/-- The `type` computation of `GET /events` (server.ts line 73):
`query.get('type') ?? undefined` — an absent parameter stays absent and
a present value, even the empty string, is forwarded unchanged. -/
def typeParam (q : Option String) : Option String :=
  match q with
  | none => none
  | some t => some t

set_option maxRecDepth 1000000

set_option maxHeartbeats 1000000

/-! ### Facts about the crypto embedding -/

/-- Every `wordBytes` entry is a byte value. -/
theorem wordBytes_lt (w : Nat) : ∀ b ∈ wordBytes w, b < 256 := by
  intro b hb
  simp only [wordBytes, List.mem_cons, List.not_mem_nil, or_false] at hb
  rcases hb with h | h | h | h <;> subst h <;> exact Nat.mod_lt _ (by norm_num)

/-- A serialized digest has 32 bytes. -/
theorem hashBytes_length (hh : Hash8) : (hashBytes hh).length = 32 := by
  simp [hashBytes, wordBytes]

/-- Every serialized digest entry is a byte value. -/
theorem hashBytes_lt (hh : Hash8) : ∀ b ∈ hashBytes hh, b < 256 := by
  intro b hb
  simp only [hashBytes, List.mem_append] at hb
  rcases hb with ((((((h | h) | h) | h) | h) | h) | h) | h <;> exact wordBytes_lt _ b h

/-- SHA-256 yields 32 bytes. -/
theorem sha256_length (m : List Nat) : (sha256 m).length = 32 :=
  hashBytes_length _

/-- SHA-256 yields byte values. -/
theorem sha256_lt (m : List Nat) : ∀ b ∈ sha256 m, b < 256 :=
  hashBytes_lt _

/-- HMAC-SHA-256 yields 32 bytes. -/
theorem hmacSha256_length (k m : List Nat) : (hmacSha256 k m).length = 32 :=
  sha256_length _

/-- HMAC-SHA-256 yields byte values. -/
theorem hmacSha256_lt (k m : List Nat) : ∀ b ∈ hmacSha256 k m, b < 256 :=
  sha256_lt _

/-- `hexVal` inverts `hexChar` on nibbles. -/
theorem hexVal_hexChar : ∀ n, n < 16 → hexVal (hexChar n) = some n := by decide

/-- One decoding step on a valid hex pair. -/
theorem hexDecodeChars_cons2 {x y : Nat} (c1 c2 : Char) (r : List Char)
    (h1 : hexVal c1 = some x) (h2 : hexVal c2 = some y) :
    hexDecodeChars (c1 :: c2 :: r) = (x * 16 + y) :: hexDecodeChars r := by
  simp only [hexDecodeChars]
  rw [h1, h2]

/-- Decoding an encoded byte list followed by any tail: the encoded part
decodes exactly, and decoding continues into the tail. -/
theorem hexDecodeChars_encode (bs : List Nat) (t : List Char) (h : ∀ b ∈ bs, b < 256) :
    hexDecodeChars (bs.flatMap (fun b => [hexChar (b / 16), hexChar (b % 16)]) ++ t) =
      bs ++ hexDecodeChars t := by
  induction bs with
  | nil => simp
  | cons b rest ih =>
    have hb : b < 256 := h b (List.mem_cons_self b rest)
    have h16 : b / 16 < 16 := by omega
    have hm : b % 16 < 16 := by omega
    simp only [List.flatMap_cons, List.cons_append, List.append_assoc]
    rw [hexDecodeChars_cons2 _ _ _ (hexVal_hexChar _ h16) (hexVal_hexChar _ hm)]
    rw [List.nil_append, ih (fun b2 hb2 => h b2 (List.mem_cons_of_mem b hb2))]
    have hdm : b / 16 * 16 + b % 16 = b := by omega
    rw [hdm]

/-- `toList` distributes over string append. -/
theorem toList_append (a b : String) : (a ++ b).toList = a.toList ++ b.toList :=
  String.data_append a b

/-- Hex round trip on byte lists. -/
theorem hexDecode_hexEncode (bs : List Nat) (h : ∀ b ∈ bs, b < 256) :
    hexDecode (hexEncode bs) = bs := by
  show hexDecodeChars (bs.flatMap (fun b => [hexChar (b / 16), hexChar (b % 16)])) = bs
  rw [← List.append_nil (bs.flatMap fun b => [hexChar (b / 16), hexChar (b % 16)])]
  rw [hexDecodeChars_encode bs [] h]
  simp [hexDecodeChars]

/-- The hex encoding of a nonempty byte list is a nonempty string. -/
theorem hexEncode_ne_empty (bs : List Nat) (h : bs ≠ []) : hexEncode bs ≠ "" := by
  cases bs with
  | nil => exact absurd rfl h
  | cons b t =>
    intro he
    have hd := congrArg String.data he
    simp [hexEncode] at hd

/-- Core evaluation of `verifyWebhookSignature` for nonempty arguments:
it is true exactly when the hex-decoded signature has digest length and
equals the expected MAC. -/
theorem verify_true_iff (p sig s : String) (hp : p ≠ "") (hsig : sig ≠ "") (hs : s ≠ "") :
    verifyWebhookSignature p sig s = true ↔
      (hexDecode sig).length = 32 ∧
        hexDecode sig = hmacSha256 (strBytes s) (strBytes p) := by
  show (if p = "" ∨ sig = "" ∨ s = "" then false
    else
      if (hexDecode sig).length ≠
          (hexDecode (hexEncode (hmacSha256 (strBytes s) (strBytes p)))).length then false
      else timingSafeEqual (hexDecode sig)
        (hexDecode (hexEncode (hmacSha256 (strBytes s) (strBytes p))))) = true ↔ _
  rw [if_neg (by simp [hp, hsig, hs])]
  rw [hexDecode_hexEncode _ (hmacSha256_lt _ _), hmacSha256_length]
  by_cases hl : (hexDecode sig).length = 32
  · rw [if_neg (by simp [hl]), timingSafeEqual, beq_iff_eq]
    simp [hl]
  · rw [if_pos (by simp [hl])]
    simp [hl]

/-- Flip bit `i % 8` of byte `i / 8` of a byte list. -/
def flipByteBit (bs : List Nat) (i : Nat) : List Nat :=
  bs.set (i / 8) (bs.getD (i / 8) 0 ^^^ (1 <<< (i % 8)))

/-- Flipping a bit keeps the length. -/
theorem flipByteBit_length (bs : List Nat) (i : Nat) :
    (flipByteBit bs i).length = bs.length :=
  List.length_set bs _ _

/-- Flipping one of the low eight bits keeps byte values bytes. -/
theorem flipByteBit_lt (bs : List Nat) (i : Nat) (h : ∀ b ∈ bs, b < 256) :
    ∀ b ∈ flipByteBit bs i, b < 256 := by
  intro b hb
  rcases List.mem_or_eq_of_mem_set hb with h1 | h1
  · exact h b h1
  · subst h1
    have hg : bs.getD (i / 8) 0 < 256 := by
      by_cases hlt : i / 8 < bs.length
      · rw [List.getD_eq_getElem bs 0 hlt]
        exact h _ (List.getElem_mem hlt)
      · rw [List.getD_eq_default bs 0 (by omega)]
        norm_num
    have hs1 : (1 <<< (i % 8)) < 256 := by
      rw [Nat.shiftLeft_eq, one_mul]
      calc 2 ^ (i % 8) ≤ 2 ^ 7 := Nat.pow_le_pow_right (by norm_num) (by omega)
        _ < 256 := by norm_num
    exact Nat.xor_lt_two_pow (n := 8) hg hs1

/-- Flipping a bit inside the list changes the list. -/
theorem flipByteBit_ne (bs : List Nat) (i : Nat) (h : i / 8 < bs.length) :
    flipByteBit bs i ≠ bs := by
  intro he
  have hL : (flipByteBit bs i).getD (i / 8) 0 = bs.getD (i / 8) 0 ^^^ (1 <<< (i % 8)) := by
    rw [List.getD_eq_getElem _ _ (by rw [flipByteBit_length]; exact h)]
    exact List.getElem_set_self _
  have hR := congrArg (fun l => l.getD (i / 8) 0) he
  simp only at hR
  rw [hL] at hR
  have h5 : bs.getD (i / 8) 0 ^^^ (bs.getD (i / 8) 0 ^^^ (1 <<< (i % 8))) = 1 <<< (i % 8) := by
    rw [← Nat.xor_assoc, Nat.xor_self, Nat.zero_xor]
  have h6 : bs.getD (i / 8) 0 ^^^ (bs.getD (i / 8) 0 ^^^ (1 <<< (i % 8))) = 0 := by
    rw [hR, Nat.xor_self]
  rw [h5] at h6
  have hpos : 0 < 1 <<< (i % 8) := by
    rw [Nat.shiftLeft_eq, one_mul]
    positivity
  omega

/-- Flip bit `i % 8` of the code point of character `i / 8` of a string
(a single-bit mutation of the signature header value). -/
def flipStrBit (s : String) (i : Nat) : String :=
  String.mk (s.toList.set (i / 8)
    (Char.ofNat ((s.toList.getD (i / 8) ' ').toNat ^^^ (1 <<< (i % 8)))))

/-! ### Claim C2 -/

/-- C2 (amended): for every nonempty payload string and nonempty secret
string, verifying the correctly computed hex-encoded HMAC-SHA-256
signature succeeds; and for every signature obtained by flipping a
single bit of the decoded 32-byte MAC (and hex-encoding the result),
verification fails.  (As literally stated the claim is false: it fails
for empty payloads/secrets, and a single-bit mutation of the hex string
itself can flip the case of a hex letter, which decodes to the same
bytes and still verifies — see the counterexample.) -/
theorem spec_C2 (p s : String) (i : Nat) (hp : p ≠ "") (hs : s ≠ "") (hi : i < 256) :
    verifyWebhookSignature p (hexEncode (hmacSha256 (strBytes s) (strBytes p))) s = true ∧
    verifyWebhookSignature p
      (hexEncode (flipByteBit (hmacSha256 (strBytes s) (strBytes p)) i)) s = false := by
  have hlt := hmacSha256_lt (strBytes s) (strBytes p)
  have hlen := hmacSha256_length (strBytes s) (strBytes p)
  have hmacne : hmacSha256 (strBytes s) (strBytes p) ≠ [] := by
    intro h0
    rw [h0] at hlen
    simp at hlen
  constructor
  · rw [verify_true_iff p _ s hp (hexEncode_ne_empty _ hmacne) hs]
    rw [hexDecode_hexEncode _ hlt]
    exact ⟨hlen, rfl⟩
  · have hflt := flipByteBit_lt _ i hlt
    have hflen : (flipByteBit (hmacSha256 (strBytes s) (strBytes p)) i).length = 32 := by
      rw [flipByteBit_length]
      exact hlen
    have hfne : flipByteBit (hmacSha256 (strBytes s) (strBytes p)) i ≠ [] := by
      intro h0
      rw [h0] at hflen
      simp at hflen
    refine Bool.eq_false_iff.mpr ?_
    intro ht
    rw [verify_true_iff p _ s hp (hexEncode_ne_empty _ hfne) hs] at ht
    rw [hexDecode_hexEncode _ hflt] at ht
    exact flipByteBit_ne _ i (by rw [hlen]; omega) ht.2

/-- Witness for C2 at payload `"x"`, secret `"k"`, bit 5. -/
theorem spec_C2_witness :
    verifyWebhookSignature "x" (hexEncode (hmacSha256 (strBytes "k") (strBytes "x"))) "k" = true ∧
    verifyWebhookSignature "x"
      (hexEncode (flipByteBit (hmacSha256 (strBytes "k") (strBytes "x")) 5)) "k" = false :=
  spec_C2 "x" "k" 5 (by decide) (by decide) (by decide)

/-- Counterexample to C2 as literally stated: with an empty payload the
correct signature still verifies false; and flipping the single bit 5 of
the first character of the correct hex signature (the case bit of the
hex letter `c`) yields a different signature string that verifies true. -/
theorem spec_C2_counterexample :
    verifyWebhookSignature "" (hexEncode (hmacSha256 (strBytes "k") (strBytes ""))) "k" = false ∧
    verifyWebhookSignature "x"
      (flipStrBit (hexEncode (hmacSha256 (strBytes "k") (strBytes "x"))) 5) "k" = true := by
  constructor
  · rfl
  · decide

/-! ### Claim C3 -/

/-- C3 (amended): `verifyWebhookSignature` returns false — and, being a
total function (the source wraps its body in `try/catch`), never raises —
whenever the payload, the signature or the secret is empty, or the byte
length of the hex-decoded signature differs from the byte length of the
expected HMAC-SHA-256 digest.  (The "not valid hex" disjunct of the
literal claim fails: Node hex decoding truncates at the first invalid
character, so a signature that is the correct hex digest followed by
invalid characters decodes to the full digest and verifies true — see
the counterexample.) -/
theorem spec_C3 (p sig s : String)
    (h : p = "" ∨ sig = "" ∨ s = "" ∨
      (hexDecode sig).length ≠ (hmacSha256 (strBytes s) (strBytes p)).length) :
    verifyWebhookSignature p sig s = false := by
  rcases h with h | h | h | h
  · simp [verifyWebhookSignature, h]
  · simp [verifyWebhookSignature, h]
  · simp [verifyWebhookSignature, h]
  · rw [hmacSha256_length] at h
    by_cases hp : p = ""
    · simp [verifyWebhookSignature, hp]
    by_cases hsg : sig = ""
    · simp [verifyWebhookSignature, hsg]
    by_cases hs : s = ""
    · simp [verifyWebhookSignature, hs]
    refine Bool.eq_false_iff.mpr ?_
    intro ht
    rw [verify_true_iff p sig s hp hsg hs] at ht
    exact h ht.1

/-- Witness for C3: a 2-character signature decodes to 0 bytes, which is
not the digest length, so verification fails. -/
theorem spec_C3_witness : verifyWebhookSignature "x" "zz" "k" = false :=
  spec_C3 "x" "zz" "k"
    (Or.inr (Or.inr (Or.inr (by rw [hmacSha256_length]; decide))))

/-- Counterexample to C3 as literally stated: the correct hex signature
followed by `"zz"` contains the non-hex character `z`, so it is not a
valid hex string, yet verification returns true because Node hex
decoding truncates at the first invalid character. -/
theorem spec_C3_counterexample :
    'z' ∈ (hexEncode (hmacSha256 (strBytes "k") (strBytes "x")) ++ "zz").toList ∧
    hexVal 'z' = none ∧
    verifyWebhookSignature "x"
      (hexEncode (hmacSha256 (strBytes "k") (strBytes "x")) ++ "zz") "k" = true := by
  have hlt := hmacSha256_lt (strBytes "k") (strBytes "x")
  have hlen := hmacSha256_length (strBytes "k") (strBytes "x")
  have hdec : hexDecode (hexEncode (hmacSha256 (strBytes "k") (strBytes "x")) ++ "zz") =
      hmacSha256 (strBytes "k") (strBytes "x") := by
    show hexDecodeChars ((hexEncode (hmacSha256 (strBytes "k") (strBytes "x")) ++ "zz").toList) = _
    rw [toList_append]
    show hexDecodeChars
      (((hmacSha256 (strBytes "k") (strBytes "x")).flatMap
        fun b => [hexChar (b / 16), hexChar (b % 16)]) ++ "zz".toList) = _
    rw [hexDecodeChars_encode _ _ hlt]
    have hz : hexDecodeChars ("zz".toList) = [] := by decide
    rw [hz, List.append_nil]
  have hsigne : hexEncode (hmacSha256 (strBytes "k") (strBytes "x")) ++ "zz" ≠ "" := by
    intro h0
    have hd := congrArg String.data h0
    simp [String.data_append] at hd
  refine ⟨?_, by decide, ?_⟩
  · rw [toList_append]
    exact List.mem_append_right _ (by decide)
  · rw [verify_true_iff _ _ _ (by decide) hsigne (by decide)]
    exact ⟨by rw [hdec]; exact hlen, hdec⟩

/-! ### Facts about the adapter embeddings -/

/-- The stored state after an adapter call: the new state on success,
the unchanged state when the call threw. -/
def stateAfter {σ : Type} (s : σ) (r : Except String σ) : σ :=
  match r with
  | .ok s2 => s2
  | .error _ => s

/-- `rowOfEvent` succeeds on an event whose two dates are valid. -/
theorem rowOfEvent_ok (e : WebhookEvent) (c0 r0 : Int)
    (hc : e.created_at = some c0) (hr : e.received_at = some r0) :
    rowOfEvent e = .ok ⟨e.id, e.event_type, e.event_id, e.data, c0, r0⟩ := by
  simp [rowOfEvent, toISOString, hc, hr, bind, Except.bind]

/-- Evaluation of the Postgres `insert` on a connected state. -/
theorem pgInsert_eq (sp : PgState) (e : WebhookEvent) (hconn : sp.conn = true)
    (row : StoredRow) (hrow : rowOfEvent e = .ok row) :
    pgInsert sp e =
      (if sp.rows.any (fun r => r.event_id == e.event_id) then .ok sp
       else if sp.rows.any (fun r => r.id == e.id) then
         .error "duplicate key value violates unique constraint"
       else .ok { sp with rows := sp.rows ++ [row] }) := by
  simp [pgInsert, pgEnsureConnected, hconn, hrow, bind, Except.bind]

/-- Evaluation of the MySQL `insert` on a connected state. -/
theorem myInsert_eq (sm : MyState) (e : WebhookEvent) (hconn : sm.conn = true)
    (row : StoredRow) (hrow : rowOfEvent e = .ok row) :
    myInsert sm e =
      (if sm.rows.any (fun r => r.event_id == e.event_id) then .ok sm
       else if sm.rows.any (fun r => r.id == e.id) then .ok sm
       else .ok { sm with rows := sm.rows ++ [row] }) := by
  simp [myInsert, myEnsureConnected, hconn, hrow, bind, Except.bind]

/-- Evaluation of the SQLite `insert` on a connected state. -/
theorem liteInsert_eq (sl : LiteState) (e : WebhookEvent) (hconn : sl.conn = true)
    (row : StoredRow) (hrow : rowOfEvent e = .ok row) :
    liteInsert sl e =
      (if sl.rows.any (fun r => r.event_id == e.event_id) then .ok sl
       else if sl.rows.any (fun r => r.id == e.id) then .ok sl
       else .ok { sl with rows := sl.rows ++ [row] }) := by
  simp [liteInsert, liteEnsureConnected, hconn, hrow, bind, Except.bind]

/-- Appending a row with a fresh `event_id` to rows not containing it
keeps the per-`event_id` row count at most one. -/
theorem countP_append_fresh (rows : List StoredRow) (row : StoredRow) (eid : String)
    (hroweid : row.event_id = eid)
    (hnodup : rows.any (fun r => r.event_id == eid) = false) :
    (rows ++ [row]).countP (fun r => r.event_id == eid) ≤ 1 := by
  rw [List.countP_append]
  have h0 : rows.countP (fun r => r.event_id == eid) = 0 := by
    rw [List.countP_eq_zero]
    intro a ha
    exact (List.any_eq_false.mp hnodup) a ha
  rw [h0]
  simp [List.countP_cons, hroweid]

/-- A membership witness turns into a true `any`. -/
theorem any_eid_true (rows : List StoredRow) (eid : String)
    (h : ∃ r ∈ rows, r.event_id = eid) :
    rows.any (fun r => r.event_id == eid) = true := by
  obtain ⟨r, hmem, heq⟩ := h
  exact List.any_eq_true.mpr ⟨r, hmem, beq_iff_eq.mpr heq⟩

/-! ### Claim C1 -/

/-- C1: in all three adapter variants, inserting an event `e` (with
valid timestamps) into a connected stored state holding at most one row
per `event_id` leaves at most one row with `e.event_id`; and when a row
with `e.event_id` already exists, the insert returns successfully with
the stored rows unchanged (no update, no duplicate, no error). -/
theorem spec_C1 (sp : PgState) (sm : MyState) (sl : LiteState) (e : WebhookEvent)
    (c0 r0 : Int) (hc : e.created_at = some c0) (hr : e.received_at = some r0)
    (hpc : sp.conn = true) (hmc : sm.conn = true) (hlc : sl.conn = true)
    (hpu : sp.rows.countP (fun r => r.event_id == e.event_id) ≤ 1)
    (hmu : sm.rows.countP (fun r => r.event_id == e.event_id) ≤ 1)
    (hlu : sl.rows.countP (fun r => r.event_id == e.event_id) ≤ 1) :
    ((stateAfter sp (pgInsert sp e)).rows.countP (fun r => r.event_id == e.event_id) ≤ 1 ∧
      ((∃ r ∈ sp.rows, r.event_id = e.event_id) → pgInsert sp e = .ok sp)) ∧
    ((stateAfter sm (myInsert sm e)).rows.countP (fun r => r.event_id == e.event_id) ≤ 1 ∧
      ((∃ r ∈ sm.rows, r.event_id = e.event_id) → myInsert sm e = .ok sm)) ∧
    ((stateAfter sl (liteInsert sl e)).rows.countP (fun r => r.event_id == e.event_id) ≤ 1 ∧
      ((∃ r ∈ sl.rows, r.event_id = e.event_id) → liteInsert sl e = .ok sl)) := by
  have hrow := rowOfEvent_ok e c0 r0 hc hr
  refine ⟨⟨?_, ?_⟩, ⟨?_, ?_⟩, ?_, ?_⟩
  · rw [pgInsert_eq sp e hpc _ hrow]
    by_cases hdup : sp.rows.any (fun r => r.event_id == e.event_id) = true
    · rw [if_pos hdup]
      exact hpu
    · rw [if_neg hdup]
      by_cases hid : sp.rows.any (fun r => r.id == e.id) = true
      · rw [if_pos hid]
        exact hpu
      · rw [if_neg hid]
        exact countP_append_fresh sp.rows _ e.event_id rfl
          (Bool.eq_false_iff.mpr hdup)
  · intro hex
    rw [pgInsert_eq sp e hpc _ hrow, if_pos (any_eid_true sp.rows e.event_id hex)]
  · rw [myInsert_eq sm e hmc _ hrow]
    by_cases hdup : sm.rows.any (fun r => r.event_id == e.event_id) = true
    · rw [if_pos hdup]
      exact hmu
    · rw [if_neg hdup]
      by_cases hid : sm.rows.any (fun r => r.id == e.id) = true
      · rw [if_pos hid]
        exact hmu
      · rw [if_neg hid]
        exact countP_append_fresh sm.rows _ e.event_id rfl
          (Bool.eq_false_iff.mpr hdup)
  · intro hex
    rw [myInsert_eq sm e hmc _ hrow, if_pos (any_eid_true sm.rows e.event_id hex)]
  · rw [liteInsert_eq sl e hlc _ hrow]
    by_cases hdup : sl.rows.any (fun r => r.event_id == e.event_id) = true
    · rw [if_pos hdup]
      exact hlu
    · rw [if_neg hdup]
      by_cases hid : sl.rows.any (fun r => r.id == e.id) = true
      · rw [if_pos hid]
        exact hlu
      · rw [if_neg hid]
        exact countP_append_fresh sl.rows _ e.event_id rfl
          (Bool.eq_false_iff.mpr hdup)
  · intro hex
    rw [liteInsert_eq sl e hlc _ hrow, if_pos (any_eid_true sl.rows e.event_id hex)]

/-- Witness fixtures: a stored row and an insert event sharing the
`event_id` `evt1`, and connected one-row states for the three variants. -/
def rowW : StoredRow := ⟨"id0", "email.delivered", "evt1", Json.obj [], 5, 6⟩

/-- Witness event with valid timestamps and the duplicate id `evt1`. -/
def evW : WebhookEvent := ⟨"id1", "email.delivered", "evt1", Json.obj [], some 10, some 11⟩

/-- Witness Postgres state. -/
def pgW : PgState := ⟨true, [rowW]⟩

/-- Witness MySQL state. -/
def myW : MyState := ⟨true, [rowW]⟩

/-- Witness SQLite state. -/
def liteW : LiteState := ⟨true, [rowW]⟩

/-- Witness for C1: a connected one-row state per variant and an event
duplicating its `event_id`. -/
theorem spec_C1_witness :
    ((stateAfter pgW (pgInsert pgW evW)).rows.countP
        (fun r => r.event_id == evW.event_id) ≤ 1 ∧
      ((∃ r ∈ pgW.rows, r.event_id = evW.event_id) → pgInsert pgW evW = .ok pgW)) ∧
    ((stateAfter myW (myInsert myW evW)).rows.countP
        (fun r => r.event_id == evW.event_id) ≤ 1 ∧
      ((∃ r ∈ myW.rows, r.event_id = evW.event_id) → myInsert myW evW = .ok myW)) ∧
    ((stateAfter liteW (liteInsert liteW evW)).rows.countP
        (fun r => r.event_id == evW.event_id) ≤ 1 ∧
      ((∃ r ∈ liteW.rows, r.event_id = evW.event_id) → liteInsert liteW evW = .ok liteW)) :=
  spec_C1 pgW myW liteW evW 10 11 rfl rfl rfl rfl rfl (by decide) (by decide) (by decide)

/-! ### Claim C9 -/

/-- After `close`, the Postgres adapter handle is gone. -/
theorem pgClose_conn (s : PgState) : (pgClose s).conn = false := by
  by_cases h : s.conn = true
  · simp [pgClose, h]
  · rw [Bool.not_eq_true] at h
    simp [pgClose, h]

/-- `close` on a Postgres adapter without a handle is the identity. -/
theorem pgClose_id (s : PgState) (h : s.conn = false) : pgClose s = s := by
  simp [pgClose, h]

/-- After `close`, the MySQL adapter handle is gone. -/
theorem myClose_conn (s : MyState) : (myClose s).conn = false := by
  by_cases h : s.conn = true
  · simp [myClose, h]
  · rw [Bool.not_eq_true] at h
    simp [myClose, h]

/-- `close` on a MySQL adapter without a handle is the identity. -/
theorem myClose_id (s : MyState) (h : s.conn = false) : myClose s = s := by
  simp [myClose, h]

/-- After `close`, the SQLite adapter handle is gone. -/
theorem liteClose_conn (s : LiteState) : (liteClose s).conn = false := by
  by_cases h : s.conn = true
  · simp [liteClose, h]
  · rw [Bool.not_eq_true] at h
    simp [liteClose, h]

/-- `close` on a SQLite adapter without a handle is the identity. -/
theorem liteClose_id (s : LiteState) (h : s.conn = false) : liteClose s = s := by
  simp [liteClose, h]

/-- C9: in every adapter variant, `createTable`, `insert` and `query`
invoked on a state without a live handle — never connected, or after
`close` — fail with that adapter's uninitialized error, a second `close`
is a no-op, and `close` (a total function) never raises. -/
theorem spec_C9 (sp sq : PgState) (sm sn : MyState) (sl sk : LiteState)
    (e : WebhookEvent) (o : QueryOptions)
    (hp : sp.conn = false) (hm : sm.conn = false) (hl : sl.conn = false) :
    (pgCreateTable sp = .error "PostgreSQL adapter is not connected. Call connect() first." ∧
     pgInsert sp e = .error "PostgreSQL adapter is not connected. Call connect() first." ∧
     pgQuery sp o = .error "PostgreSQL adapter is not connected. Call connect() first." ∧
     pgClose sp = sp ∧
     pgClose (pgClose sq) = pgClose sq ∧
     pgCreateTable (pgClose sq) =
       .error "PostgreSQL adapter is not connected. Call connect() first." ∧
     pgInsert (pgClose sq) e =
       .error "PostgreSQL adapter is not connected. Call connect() first." ∧
     pgQuery (pgClose sq) o =
       .error "PostgreSQL adapter is not connected. Call connect() first.") ∧
    (myCreateTable sm = .error "MySQL adapter is not connected. Call connect() first." ∧
     myInsert sm e = .error "MySQL adapter is not connected. Call connect() first." ∧
     myQuery sm o = .error "MySQL adapter is not connected. Call connect() first." ∧
     myClose sm = sm ∧
     myClose (myClose sn) = myClose sn ∧
     myCreateTable (myClose sn) =
       .error "MySQL adapter is not connected. Call connect() first." ∧
     myInsert (myClose sn) e =
       .error "MySQL adapter is not connected. Call connect() first." ∧
     myQuery (myClose sn) o =
       .error "MySQL adapter is not connected. Call connect() first.") ∧
    (liteCreateTable sl = .error "SQLite adapter is not connected. Call connect() first." ∧
     liteInsert sl e = .error "SQLite adapter is not connected. Call connect() first." ∧
     liteQuery sl o = .error "SQLite adapter is not connected. Call connect() first." ∧
     liteClose sl = sl ∧
     liteClose (liteClose sk) = liteClose sk ∧
     liteCreateTable (liteClose sk) =
       .error "SQLite adapter is not connected. Call connect() first." ∧
     liteInsert (liteClose sk) e =
       .error "SQLite adapter is not connected. Call connect() first." ∧
     liteQuery (liteClose sk) o =
       .error "SQLite adapter is not connected. Call connect() first.") := by
  have hq := pgClose_conn sq
  have hn := myClose_conn sn
  have hk := liteClose_conn sk
  refine ⟨⟨?_, ?_, ?_, ?_, ?_, ?_, ?_, ?_⟩,
    ⟨?_, ?_, ?_, ?_, ?_, ?_, ?_, ?_⟩, ?_, ?_, ?_, ?_, ?_, ?_, ?_, ?_⟩
  · simp [pgCreateTable, pgEnsureConnected, hp, bind, Except.bind]
  · simp [pgInsert, pgEnsureConnected, hp, bind, Except.bind]
  · simp [pgQuery, pgEnsureConnected, hp, bind, Except.bind]
  · exact pgClose_id sp hp
  · exact pgClose_id _ hq
  · simp [pgCreateTable, pgEnsureConnected, hq, bind, Except.bind]
  · simp [pgInsert, pgEnsureConnected, hq, bind, Except.bind]
  · simp [pgQuery, pgEnsureConnected, hq, bind, Except.bind]
  · simp [myCreateTable, myEnsureConnected, hm, bind, Except.bind]
  · simp [myInsert, myEnsureConnected, hm, bind, Except.bind]
  · simp [myQuery, myEnsureConnected, hm, bind, Except.bind]
  · exact myClose_id sm hm
  · exact myClose_id _ hn
  · simp [myCreateTable, myEnsureConnected, hn, bind, Except.bind]
  · simp [myInsert, myEnsureConnected, hn, bind, Except.bind]
  · simp [myQuery, myEnsureConnected, hn, bind, Except.bind]
  · simp [liteCreateTable, liteEnsureConnected, hl, bind, Except.bind]
  · simp [liteInsert, liteEnsureConnected, hl, bind, Except.bind]
  · simp [liteQuery, liteEnsureConnected, hl, bind, Except.bind]
  · exact liteClose_id sl hl
  · exact liteClose_id _ hk
  · simp [liteCreateTable, liteEnsureConnected, hk, bind, Except.bind]
  · simp [liteInsert, liteEnsureConnected, hk, bind, Except.bind]
  · simp [liteQuery, liteEnsureConnected, hk, bind, Except.bind]

/-- Never-connected Postgres state for the C9 witness. -/
def pgU : PgState := ⟨false, []⟩

/-- Never-connected MySQL state for the C9 witness. -/
def myU : MyState := ⟨false, []⟩

/-- Never-connected SQLite state for the C9 witness. -/
def liteU : LiteState := ⟨false, []⟩

/-- Default query options for the C9 witness. -/
def qOptW : QueryOptions := ⟨none, none, none⟩

/-- Witness for C9: never-connected states, plus connected states that
get closed. -/
theorem spec_C9_witness :
    (pgCreateTable pgU = .error "PostgreSQL adapter is not connected. Call connect() first." ∧
     pgInsert pgU evW = .error "PostgreSQL adapter is not connected. Call connect() first." ∧
     pgQuery pgU qOptW = .error "PostgreSQL adapter is not connected. Call connect() first." ∧
     pgClose pgU = pgU ∧
     pgClose (pgClose pgW) = pgClose pgW ∧
     pgCreateTable (pgClose pgW) =
       .error "PostgreSQL adapter is not connected. Call connect() first." ∧
     pgInsert (pgClose pgW) evW =
       .error "PostgreSQL adapter is not connected. Call connect() first." ∧
     pgQuery (pgClose pgW) qOptW =
       .error "PostgreSQL adapter is not connected. Call connect() first.") ∧
    (myCreateTable myU = .error "MySQL adapter is not connected. Call connect() first." ∧
     myInsert myU evW = .error "MySQL adapter is not connected. Call connect() first." ∧
     myQuery myU qOptW = .error "MySQL adapter is not connected. Call connect() first." ∧
     myClose myU = myU ∧
     myClose (myClose myW) = myClose myW ∧
     myCreateTable (myClose myW) =
       .error "MySQL adapter is not connected. Call connect() first." ∧
     myInsert (myClose myW) evW =
       .error "MySQL adapter is not connected. Call connect() first." ∧
     myQuery (myClose myW) qOptW =
       .error "MySQL adapter is not connected. Call connect() first.") ∧
    (liteCreateTable liteU = .error "SQLite adapter is not connected. Call connect() first." ∧
     liteInsert liteU evW = .error "SQLite adapter is not connected. Call connect() first." ∧
     liteQuery liteU qOptW = .error "SQLite adapter is not connected. Call connect() first." ∧
     liteClose liteU = liteU ∧
     liteClose (liteClose liteW) = liteClose liteW ∧
     liteCreateTable (liteClose liteW) =
       .error "SQLite adapter is not connected. Call connect() first." ∧
     liteInsert (liteClose liteW) evW =
       .error "SQLite adapter is not connected. Call connect() first." ∧
     liteQuery (liteClose liteW) qOptW =
       .error "SQLite adapter is not connected. Call connect() first.") :=
  spec_C9 pgU pgW myU myW liteU liteW evW qOptW rfl rfl rfl

/-! ### Claim C4 -/

/-- When the type filter is a nonempty string, every queried event has
exactly that `event_type`. -/
theorem queryRows_all_type (rows : List StoredRow) (t : String) (l o : Option Nat)
    (ht : t ≠ "") :
    (queryRows rows ⟨some t, l, o⟩).all (fun ev => ev.event_type == t) = true := by
  have htr : jsTruthyStr (some t) = true := by
    simp [jsTruthyStr, beq_eq_false_iff_ne, ht]
  rw [List.all_eq_true]
  intro ev hev
  simp only [queryRows, htr, if_pos, Option.getD_some] at hev
  obtain ⟨r, hr, hrev⟩ := List.mem_map.mp hev
  have hr2 : r ∈ List.insertionSort rowDescOrd (rows.filter fun r => r.event_type == t) :=
    (List.drop_sublist _ _).subset ((List.take_sublist _ _).subset hr)
  have hr3 := (List.perm_insertionSort rowDescOrd _).subset hr2
  have hrt := (List.mem_filter.mp hr3).2
  rw [← hrev]
  simpa only [eventOfRow] using hrt

/-- Query results are sorted by `created_at` descending. -/
theorem queryRows_sorted (rows : List StoredRow) (opts : QueryOptions) :
    List.Pairwise (fun a b : WebhookEvent => b.created_at.getD 0 ≤ a.created_at.getD 0)
      (queryRows rows opts) := by
  have hsub : ∀ (l2 : List StoredRow) (n m : Nat),
      ((l2.drop m).take n).Sublist l2 :=
    fun l2 n m => (List.take_sublist _ _).trans (List.drop_sublist _ _)
  have hmap : ∀ (l2 : List StoredRow),
      List.Pairwise rowDescOrd l2 →
      List.Pairwise (fun a b : WebhookEvent => b.created_at.getD 0 ≤ a.created_at.getD 0)
        (l2.map eventOfRow) := by
    intro l2 hp
    refine List.Pairwise.map eventOfRow ?_ hp
    intro a b hab
    simpa [eventOfRow] using hab
  unfold queryRows
  by_cases h : jsTruthyStr opts.type = true
  · simp only [h, if_pos]
    exact hmap _
      (List.Pairwise.sublist (hsub _ _ _) (List.sorted_insertionSort rowDescOrd _))
  · rw [Bool.not_eq_true] at h
    simp only [h, Bool.false_eq_true, if_neg, not_false_iff]
    exact hmap _
      (List.Pairwise.sublist (hsub _ _ _) (List.sorted_insertionSort rowDescOrd _))

/-- At most `limit` (default 50) results are returned. -/
theorem queryRows_length (rows : List StoredRow) (opts : QueryOptions) :
    (queryRows rows opts).length ≤ opts.limit.getD 50 := by
  unfold queryRows
  by_cases h : jsTruthyStr opts.type = true
  · simp only [h, if_pos, List.length_map, List.length_take]
    omega
  · rw [Bool.not_eq_true] at h
    simp only [h, Bool.false_eq_true, if_neg, not_false_iff, List.length_map, List.length_take]
    omega

/-- With offset 0 and the row count as limit, the typed query returns
exactly the rows matching the filter (up to the sort order). -/
theorem queryRows_exact (rows : List StoredRow) (t : String) (ht : t ≠ "") :
    (queryRows rows ⟨some t, some rows.length, some 0⟩).Perm
      ((rows.filter (fun r => r.event_type == t)).map eventOfRow) := by
  have htr : jsTruthyStr (some t) = true := by
    simp [jsTruthyStr, beq_eq_false_iff_ne, ht]
  have hlen : (List.insertionSort rowDescOrd
      (rows.filter fun r => r.event_type == t)).length ≤ rows.length := by
    rw [(List.perm_insertionSort rowDescOrd _).length_eq]
    exact List.length_filter_le _ _
  simp only [queryRows, htr, if_pos, Option.getD_some, List.drop_zero]
  rw [List.take_of_length_le hlen]
  exact (List.perm_insertionSort rowDescOrd _).map eventOfRow

/-- Scenario event 1 (oldest). -/
def evS1 : WebhookEvent := ⟨"i1", "email.delivered", "e1", Json.obj [], some 10, some 100⟩

/-- Scenario event 2. -/
def evS2 : WebhookEvent := ⟨"i2", "email.delivered", "e2", Json.obj [], some 20, some 100⟩

/-- Scenario event 3. -/
def evS3 : WebhookEvent := ⟨"i3", "email.delivered", "e3", Json.obj [], some 30, some 100⟩

/-- Scenario event 4. -/
def evS4 : WebhookEvent := ⟨"i4", "email.delivered", "e4", Json.obj [], some 40, some 100⟩

/-- Scenario event 5 (most recent). -/
def evS5 : WebhookEvent := ⟨"i5", "email.delivered", "e5", Json.obj [], some 50, some 100⟩

/-- Insert a list of events into a SQLite adapter state, one by one. -/
def insertAllLite (s : LiteState) (evs : List WebhookEvent) : LiteState :=
  evs.foldl (fun st e => stateAfter st (liteInsert st e)) s

/-- The pagination scenario: five events with distinct `created_at`
inserted into a fresh connected store. -/
def scenarioState : LiteState :=
  insertAllLite ⟨true, []⟩ [evS1, evS2, evS3, evS4, evS5]

/-- C4: on a connected adapter, `query` returns the SQL semantics of the
stored rows — only rows matching a (truthy) type filter, sorted by
`created_at` descending, `offset` rows skipped, at most `limit`
(default 50, offset default 0) returned, and exactly the matching rows
when limit/offset do not cut the list; in particular, after inserting 5
events with distinct `created_at`, querying with limit 2 and offset 2
returns exactly the 3rd and 4th most recent events in descending
order. -/
theorem spec_C4 (s : LiteState) (t : String) (l o : Option Nat) (opts : QueryOptions)
    (hconn : s.conn = true) (ht : t ≠ "") :
    liteQuery s opts = .ok (queryRows s.rows opts) ∧
    (queryRows s.rows ⟨some t, l, o⟩).all (fun ev => ev.event_type == t) = true ∧
    List.Pairwise (fun a b : WebhookEvent => b.created_at.getD 0 ≤ a.created_at.getD 0)
      (queryRows s.rows opts) ∧
    (queryRows s.rows opts).length ≤ opts.limit.getD 50 ∧
    queryRows s.rows { type := opts.type } =
      queryRows s.rows ⟨opts.type, some 50, some 0⟩ ∧
    (queryRows s.rows ⟨some t, some s.rows.length, some 0⟩).Perm
      ((s.rows.filter (fun r => r.event_type == t)).map eventOfRow) ∧
    liteQuery scenarioState ⟨none, some 2, some 2⟩ =
      .ok [⟨"i3", "email.delivered", "e3", Json.obj [], some 30, some 100⟩,
           ⟨"i2", "email.delivered", "e2", Json.obj [], some 20, some 100⟩] := by
  refine ⟨?_, queryRows_all_type s.rows t l o ht, queryRows_sorted s.rows opts,
    queryRows_length s.rows opts, rfl, queryRows_exact s.rows t ht, rfl⟩
  simp [liteQuery, liteEnsureConnected, hconn, bind, Except.bind]

/-- Witness for C4 at the one-row connected SQLite state. -/
theorem spec_C4_witness :
    liteQuery liteW ⟨some "email.delivered", some 7, some 1⟩ =
      .ok (queryRows liteW.rows ⟨some "email.delivered", some 7, some 1⟩) ∧
    (queryRows liteW.rows ⟨some "email.delivered", some 7, some 1⟩).all
      (fun ev => ev.event_type == "email.delivered") = true ∧
    List.Pairwise (fun a b : WebhookEvent => b.created_at.getD 0 ≤ a.created_at.getD 0)
      (queryRows liteW.rows ⟨some "email.delivered", some 7, some 1⟩) ∧
    (queryRows liteW.rows ⟨some "email.delivered", some 7, some 1⟩).length ≤
      (some 7 : Option Nat).getD 50 ∧
    queryRows liteW.rows { type := some "email.delivered" } =
      queryRows liteW.rows ⟨some "email.delivered", some 50, some 0⟩ ∧
    (queryRows liteW.rows ⟨some "email.delivered", some liteW.rows.length, some 0⟩).Perm
      ((liteW.rows.filter (fun r => r.event_type == "email.delivered")).map eventOfRow) ∧
    liteQuery scenarioState ⟨none, some 2, some 2⟩ =
      .ok [⟨"i3", "email.delivered", "e3", Json.obj [], some 30, some 100⟩,
           ⟨"i2", "email.delivered", "e2", Json.obj [], some 20, some 100⟩] :=
  spec_C4 liteW "email.delivered" (some 7) (some 1)
    ⟨some "email.delivered", some 7, some 1⟩ rfl (by decide)

/-! ### Claim C10 -/

/-- An empty-string type filter is JS-falsy, so the `event_type`
condition is omitted, exactly as when the filter is absent. -/
theorem queryRows_empty_type (rows : List StoredRow) (l o : Option Nat) :
    queryRows rows ⟨some "", l, o⟩ = queryRows rows ⟨none, l, o⟩ := by
  simp [queryRows, jsTruthyStr]

/-- C10: the router forwards a present-but-empty `type` parameter as the
empty string, and in every adapter variant a query with the empty-string
type filter behaves exactly like an unfiltered query — it returns events
of all types. -/
theorem spec_C10 (sp : PgState) (sm : MyState) (sl : LiteState)
    (rows : List StoredRow) (l o : Option Nat) :
    typeParam (some "") = some "" ∧
    pgQuery sp ⟨some "", l, o⟩ = pgQuery sp ⟨none, l, o⟩ ∧
    myQuery sm ⟨some "", l, o⟩ = myQuery sm ⟨none, l, o⟩ ∧
    liteQuery sl ⟨some "", l, o⟩ = liteQuery sl ⟨none, l, o⟩ ∧
    queryRows rows ⟨some "", l, o⟩ = queryRows rows ⟨none, l, o⟩ := by
  refine ⟨rfl, ?_, ?_, ?_, queryRows_empty_type rows l o⟩
  · simp [pgQuery, bind, Except.bind, queryRows_empty_type]
  · simp [myQuery, bind, Except.bind, queryRows_empty_type]
  · simp [liteQuery, bind, Except.bind, queryRows_empty_type]

/-! ### Claim C5 -/

/-- C5 (amended): `GET /events` clamps a parsed nonzero limit into
[1, 1000] and a parsed offset into [0, ∞); missing parameters and
unparseable integers fall back to the defaults 50 and 0 rather than an
error; but a parse result of 0 is JS-falsy, so `limit=0` also falls
back to the default 50 — it is not clamped up to 1. -/
theorem spec_C5 (s s2 : String) (n : Int) (h : parseIntDec s = some n) (hn : n ≠ 0)
    (h2 : parseIntDec s2 = none) :
    clampLimit (some s) = min (max n 1) 1000 ∧
    clampOffset (some s) = max n 0 ∧
    1 ≤ clampLimit (some s) ∧ clampLimit (some s) ≤ 1000 ∧
    0 ≤ clampOffset (some s) ∧
    clampLimit none = 50 ∧ clampOffset none = 0 ∧
    clampLimit (some s2) = 50 ∧ clampOffset (some s2) = 0 ∧
    clampLimit (some "0") = 50 := by
  have hl : clampLimit (some s) = min (max n 1) 1000 := by
    simp [clampLimit, jsOrInt, h, hn]
  have ho : clampOffset (some s) = max n 0 := by
    simp [clampOffset, jsOrInt, h, hn]
  refine ⟨hl, ho, ?_, ?_, ?_, rfl, rfl, ?_, ?_, by decide⟩
  · rw [hl]
    omega
  · rw [hl]
    omega
  · rw [ho]
    omega
  · simp [clampLimit, jsOrInt, h2]
  · simp [clampOffset, jsOrInt, h2]

/-- Witness for C5 at `limit=7`-style input and an unparseable input. -/
theorem spec_C5_witness :
    clampLimit (some "7") = min (max 7 1) 1000 ∧
    clampOffset (some "7") = max 7 0 ∧
    1 ≤ clampLimit (some "7") ∧ clampLimit (some "7") ≤ 1000 ∧
    0 ≤ clampOffset (some "7") ∧
    clampLimit none = 50 ∧ clampOffset none = 0 ∧
    clampLimit (some "abc") = 50 ∧ clampOffset (some "abc") = 0 ∧
    clampLimit (some "0") = 50 :=
  spec_C5 "7" "abc" 7 (by decide) (by decide) (by decide)

/-- Counterexample to C5 as stated: `limit=0` is computed as the
default 50 (`parseInt('0', 10) || 50` is 50 because 0 is falsy), not as
the clamped minimum 1 that `limit=1` produces. -/
theorem spec_C5_counterexample :
    clampLimit (some "0") = 50 ∧ clampLimit (some "1") = 1 ∧
    clampLimit (some "0") ≠ clampLimit (some "1") := by decide

/-! ### Claim C6 -/

/-- Fresh connected SQLite state for the C6 witness. -/
def liteE : LiteState := ⟨true, []⟩

/-- C6 (amended): for a verified, JSON-parsed webhook payload, the
stored event's `created_at` is the instant parsed from the payload's
`created_at` field when that field is present, JS-truthy and parseable;
it is the ingest time when the field is absent or falsy; and when the
field is present, truthy but not parseable, the built `Date` is invalid,
its serialization in `insert` throws, and the route answers 500 with
nothing stored (rather than falling back to the ingest time). -/
theorem spec_C6 (st : LiteState) (payload : Json) (now : Int) (u1 u2 : String)
    (hconn : st.conn = true)
    (hfresh : st.rows.any
      (fun r => r.event_id == (normalizeEvent payload now u1 u2).event_id) = false)
    (hfid : st.rows.any (fun r => r.id == u1) = false) :
    ingestParsedPayload liteInsert st payload now u1 u2 =
      match (match lookupField payload "created_at" with
             | none => some now
             | some v => if jsTruthyJson v then jsDateOf v else some now) with
      | some t0 =>
        (⟨200, .obj [("received", .bool true), ("id", .str u1)]⟩,
         { st with rows := st.rows ++
            [⟨u1, (normalizeEvent payload now u1 u2).event_type,
              (normalizeEvent payload now u1 u2).event_id, payload, t0, now⟩] })
      | none => (⟨500, .obj [("error", .str "Internal server error")]⟩, st) := by
  have hid1 : (normalizeEvent payload now u1 u2).id = u1 := rfl
  have hdata : (normalizeEvent payload now u1 u2).data = payload := rfl
  have hrecv : (normalizeEvent payload now u1 u2).received_at = some now := rfl
  have hca : (normalizeEvent payload now u1 u2).created_at =
      (match lookupField payload "created_at" with
       | none => some now
       | some v => if jsTruthyJson v then jsDateOf v else some now) := rfl
  cases hcv : (match lookupField payload "created_at" with
               | none => some now
               | some v => if jsTruthyJson v then jsDateOf v else some now) with
  | some t0 =>
    have hrow : rowOfEvent (normalizeEvent payload now u1 u2) =
        .ok ⟨u1, (normalizeEvent payload now u1 u2).event_type,
          (normalizeEvent payload now u1 u2).event_id, payload, t0, now⟩ := by
      have := rowOfEvent_ok (normalizeEvent payload now u1 u2) t0 now
        (by rw [hca, hcv]) hrecv
      simpa [hid1, hdata] using this
    simp only [ingestParsedPayload,
      liteInsert_eq st (normalizeEvent payload now u1 u2) hconn _ hrow,
      hfresh, hfid, Bool.false_eq_true, if_neg, not_false_iff, hid1]
  | none =>
    have hrow : rowOfEvent (normalizeEvent payload now u1 u2) =
        .error "Invalid time value" := by
      simp [rowOfEvent, toISOString, hca, hcv, bind, Except.bind]
    simp [ingestParsedPayload, liteInsert, liteEnsureConnected, hconn, hrow,
      bind, Except.bind]

/-- Witness for C6: a parseable ISO `created_at` on a fresh store. -/
theorem spec_C6_witness :
    ingestParsedPayload liteInsert liteE
        (Json.obj [("created_at", Json.str "2024-01-02T03:04:05.006Z")]) 1000 "u1" "u2" =
      match (match lookupField
               (Json.obj [("created_at", Json.str "2024-01-02T03:04:05.006Z")]) "created_at" with
             | none => some 1000
             | some v => if jsTruthyJson v then jsDateOf v else some 1000) with
      | some t0 =>
        (⟨200, .obj [("received", .bool true), ("id", .str "u1")]⟩,
         { liteE with rows := liteE.rows ++
            [⟨"u1",
              (normalizeEvent (Json.obj [("created_at", Json.str "2024-01-02T03:04:05.006Z")])
                1000 "u1" "u2").event_type,
              (normalizeEvent (Json.obj [("created_at", Json.str "2024-01-02T03:04:05.006Z")])
                1000 "u1" "u2").event_id,
              Json.obj [("created_at", Json.str "2024-01-02T03:04:05.006Z")], t0, 1000⟩] })
      | none => (⟨500, .obj [("error", .str "Internal server error")]⟩, liteE) :=
  spec_C6 liteE (Json.obj [("created_at", Json.str "2024-01-02T03:04:05.006Z")])
    1000 "u1" "u2" rfl rfl rfl

/-- Counterexample to C6 as stated: a present but unparseable
`created_at` (`"garbage"`) does not fall back to the ingest time — the
insert throws on the invalid date and the route answers 500 with the
store unchanged; and a present, arguably parseable but falsy
`created_at` (the number 0, epoch) is stored as the ingest time 1000,
not as the parsed instant 0. -/
theorem spec_C6_counterexample :
    ingestParsedPayload liteInsert ⟨true, []⟩
        (Json.obj [("created_at", Json.str "garbage")]) 1000 "u1" "u2" =
      (⟨500, .obj [("error", .str "Internal server error")]⟩, (⟨true, []⟩ : LiteState)) ∧
    ingestParsedPayload liteInsert ⟨true, []⟩
        (Json.obj [("created_at", Json.num 0)]) 1000 "u1" "u2" =
      (⟨200, .obj [("received", .bool true), ("id", .str "u1")]⟩,
       (⟨true, [⟨"u1", "unknown", "u2", Json.obj [("created_at", Json.num 0)], 1000, 1000⟩]⟩ :
         LiteState)) :=
  ⟨rfl, rfl⟩

/-! ### Claim C7 -/

/-- Shared helper: verification fails on any empty argument or when the
decoded signature does not have the 32-byte digest length. -/
theorem verify_false_cases (p sig s : String)
    (h : p = "" ∨ sig = "" ∨ s = "" ∨ (hexDecode sig).length ≠ 32) :
    verifyWebhookSignature p sig s = false := by
  rcases h with h | h | h | h
  · simp [verifyWebhookSignature, h]
  · simp [verifyWebhookSignature, h]
  · simp [verifyWebhookSignature, h]
  · by_cases hp : p = ""
    · simp [verifyWebhookSignature, hp]
    by_cases hsg : sig = ""
    · simp [verifyWebhookSignature, hsg]
    by_cases hs : s = ""
    · simp [verifyWebhookSignature, hs]
    refine Bool.eq_false_iff.mpr ?_
    intro ht
    rw [verify_true_iff p sig s hp hsg hs] at ht
    exact h ht.1

/-- C7 (amended): a request whose `x-veilmail-signature` header is
absent — or present but empty, since the source's guard
`if (!signature)` tests JS falsiness — gets the 401
`Missing x-veilmail-signature header` body, while a request whose
present nonempty signature fails verification gets the 401
`Invalid webhook signature` body; both leave the store untouched, and
the two bodies differ, so the response does reveal which of the two
checks failed. -/
theorem spec_C7 {σ : Type} (insertFn : σ → WebhookEvent → Except String σ)
    (secret body sig : String) (parsed : Option Json) (st : σ) (now : Int) (u1 u2 : String)
    (hsne : sig ≠ "") (hv : verifyWebhookSignature body sig secret = false) :
    webhookRoute insertFn secret none body parsed st now u1 u2 =
      (⟨401, .obj [("error", .str "Missing x-veilmail-signature header")]⟩, st) ∧
    webhookRoute insertFn secret (some "") body parsed st now u1 u2 =
      (⟨401, .obj [("error", .str "Missing x-veilmail-signature header")]⟩, st) ∧
    webhookRoute insertFn secret (some sig) body parsed st now u1 u2 =
      (⟨401, .obj [("error", .str "Invalid webhook signature")]⟩, st) ∧
    ("Missing x-veilmail-signature header" : String) ≠ "Invalid webhook signature" := by
  refine ⟨rfl, rfl, ?_, by decide⟩
  simp [webhookRoute, Option.getD_some, hsne, hv]

/-- Witness for C7 on the SQLite adapter with signature value `zz`. -/
theorem spec_C7_witness :
    webhookRoute liteInsert "k" none "x" none liteU 0 "u1" "u2" =
      (⟨401, .obj [("error", .str "Missing x-veilmail-signature header")]⟩, liteU) ∧
    webhookRoute liteInsert "k" (some "") "x" none liteU 0 "u1" "u2" =
      (⟨401, .obj [("error", .str "Missing x-veilmail-signature header")]⟩, liteU) ∧
    webhookRoute liteInsert "k" (some "zz") "x" none liteU 0 "u1" "u2" =
      (⟨401, .obj [("error", .str "Invalid webhook signature")]⟩, liteU) ∧
    ("Missing x-veilmail-signature header" : String) ≠ "Invalid webhook signature" :=
  spec_C7 liteInsert "k" "x" "zz" none liteU 0 "u1" "u2" (by decide)
    (verify_false_cases "x" "zz" "k" (Or.inr (Or.inr (Or.inr (by decide)))))

/-- Counterexample to C7 as stated: with the same body and secret, the
missing-header request and the invalid-signature request get different
401 bodies, so the responses are not the same. -/
theorem spec_C7_counterexample :
    (webhookRoute liteInsert "k" none "x" none liteU 0 "u1" "u2").1.body ≠
      (webhookRoute liteInsert "k" (some "zz") "x" none liteU 0 "u1" "u2").1.body := by
  have hv : verifyWebhookSignature "x" "zz" "k" = false :=
    verify_false_cases "x" "zz" "k" (Or.inr (Or.inr (Or.inr (by decide))))
  have h2 : webhookRoute liteInsert "k" (some "zz") "x" none liteU 0 "u1" "u2" =
      (⟨401, .obj [("error", .str "Invalid webhook signature")]⟩, liteU) := by
    simp [webhookRoute, Option.getD_some, hv]
  rw [h2]
  intro h
  simp [webhookRoute] at h

/-! ### Claim C8 -/

/-- C8 (amended): when `createAdapter` is called without a
caller-supplied table name, the adapter is constructed — for each
supported backend kind — with the declared default table name
`veilmail_webhook_events` (not `webhook_events`). -/
theorem spec_C8 (cfg : DatabaseConfig)
    (h : cfg.type = "postgres" ∨ cfg.type = "mysql" ∨ cfg.type = "sqlite") :
    createAdapter cfg = .ok ⟨cfg.type, cfg.url, "veilmail_webhook_events"⟩ := by
  rcases h with h | h | h <;> simp [createAdapter, h]

/-- Witness for C8 at a SQLite configuration. -/
theorem spec_C8_witness :
    createAdapter ⟨"sqlite", ":memory:"⟩ =
      .ok ⟨"sqlite", ":memory:", "veilmail_webhook_events"⟩ :=
  spec_C8 ⟨"sqlite", ":memory:"⟩ (Or.inr (Or.inr rfl))

/-- Counterexample to C8 as stated: the defaulted table name is
`veilmail_webhook_events`, which is not the claimed `webhook_events`. -/
theorem spec_C8_counterexample :
    createAdapter ⟨"postgres", "postgres://h/db"⟩ =
      .ok ⟨"postgres", "postgres://h/db", "veilmail_webhook_events"⟩ ∧
    ("veilmail_webhook_events" : String) ≠ "webhook_events" :=
  ⟨rfl, by decide⟩
